import Mathlib

/-
Verification development for `check_mail_loop.py` (icinga_check_mail_loop).

The file shallowly embeds the retrieval core of the plugin:
  * `imap_search_server` (source lines 174-237): scan one mailbox for the
    expected token, optionally marking every visited message deleted.
  * `imap_retrieve_mail` (source lines 124-171): three retry rounds with
    quadratic backoff over the ordered mailbox list (spam box first).
  * the final status mapping of `main` (source lines 299-310).

Python strings are modelled as Lean `String`s; the handful of Python string
operations the source uses (`split`, `splitlines`, `strip`, `startswith`,
`int(...)`) are re-implemented below by structural recursion over the
character list, so that every definition evaluates inside the kernel.
Fallible Python operations (list indexing that can raise `IndexError`,
`int(...)` that can raise `ValueError`) are modelled with `Except`.

The IMAP server is an abstract environment: an `ImapMailbox` record holds the
responses the code observes (select status/data, search status/data, and the
fetched RFC822 text per message id), and a run environment maps (round,
mailbox name) to such a record.  Side effects (sleeps, scans, logout, the
`\Deleted` stores, `expunge`, `close`) are recorded in explicit traces.
-/

/-- Python `str.strip()` whitespace (the ASCII subset relevant to mail
headers): space, tab, LF, CR, VT, FF. -/
def isPyWs (c : Char) : Bool :=
  c = ' ' || c = '\t' || c = '\n' || c = '\r' || c = '\x0b' || c = '\x0c'

/-- Characters of a string with leading and trailing Python whitespace
removed. -/
def pyStripChars (l : List Char) : List Char :=
  ((l.dropWhile isPyWs).reverse.dropWhile isPyWs).reverse

/-- Python `str.strip()` with no argument. -/
def pyStrip (s : String) : String :=
  String.mk (pyStripChars s.data)

/-- Worker for Python `str.split(sep)` with a non-empty separator.  The fuel
argument only makes the recursion structural; it is instantiated with the
length of the input, which the splitting can never exhaust (each step consumes
at least one character and exactly one unit of fuel). -/
def splitOnFuel (sep : List Char) : Nat → List Char → List Char → List (List Char)
  | _, [], acc => [acc.reverse]
  | 0, rest, acc => [acc.reverse ++ rest]
  | fuel + 1, c :: rest, acc =>
    if sep.isPrefixOf (c :: rest) then
      acc.reverse :: splitOnFuel sep fuel (List.drop sep.length (c :: rest)) []
    else
      splitOnFuel sep fuel rest (c :: acc)

/-- Python `s.split(sep)` for a non-empty separator `sep` (Python raises on an
empty separator; the source only ever passes non-empty literals). -/
def pySplit (s sep : String) : List String :=
  if sep.data = [] then [s]
  else (splitOnFuel sep.data s.data.length s.data []).map String.mk

/-- Worker for Python `split()` with no argument: split on whitespace runs,
discarding empty pieces. -/
def pySplitWsAux : List Char → List Char → List String
  | [], [] => []
  | [], acc => [String.mk acc.reverse]
  | c :: rest, acc =>
    if isPyWs c then
      (if acc = [] then pySplitWsAux rest []
       else String.mk acc.reverse :: pySplitWsAux rest [])
    else pySplitWsAux rest (c :: acc)

/-- Python `s.split()` (no argument), as used on the SEARCH response data. -/
def pySplitWs (s : String) : List String :=
  pySplitWsAux s.data []

/-- Worker for Python `str.splitlines()` restricted to the line breaks that
occur in RFC822 text: `\r\n`, `\r`, `\n`. -/
def splitlinesAux : List Char → List Char → List String
  | [], [] => []
  | [], acc => [String.mk acc.reverse]
  | '\r' :: '\n' :: rest, acc => String.mk acc.reverse :: splitlinesAux rest []
  | '\r' :: rest, acc => String.mk acc.reverse :: splitlinesAux rest []
  | '\n' :: rest, acc => String.mk acc.reverse :: splitlinesAux rest []
  | c :: rest, acc => splitlinesAux rest (c :: acc)

/-- Python `s.splitlines()`. -/
def pySplitlines (s : String) : List String :=
  splitlinesAux s.data []

/-- Numeric value of a list of decimal digits. -/
def digitsToNat (ds : List Char) : Nat :=
  ds.foldl (fun a c => 10 * a + (c.toNat - 48)) 0

/-- Python `int(s)`: strip whitespace, optional sign, then a non-empty run of
decimal digits; anything else raises `ValueError` (modelled as `none`). -/
def pyInt (s : String) : Option Int :=
  match pyStripChars s.data with
  | [] => none
  | '-' :: ds =>
    if ds ≠ [] ∧ ds.all Char.isDigit then some (-(digitsToNat ds : Int)) else none
  | '+' :: ds =>
    if ds ≠ [] ∧ ds.all Char.isDigit then some ((digitsToNat ds : Int)) else none
  | ds =>
    if ds.all Char.isDigit then some ((digitsToNat ds : Int)) else none

/-- The `MailFound` enumeration of the source (lines 54-58). -/
inductive MailFound
  | UNDEFINED
  | FOUND
  | FOUND_IN_SPAM
  | NOT_FOUND
deriving DecidableEq, Repr

/-- Python exceptions the embedded code can raise: the `IndexError` of
`line.split("X-Icinga-Test-Id: ")[1]` (line 216) and the `ValueError` of
`int(num_msg_in_mbox[0])` (line 195). -/
inductive PyErr
  | indexError
  | valueError
deriving DecidableEq, Repr

/-- The header block of a fetched message: source line 188,
`"\r\n\r\n".join(self.data.split("\r\n\r\n")[0:1])`, i.e. the text before the
first blank line (the whole text when there is none). -/
def emailHeader (data : String) : String :=
  match pySplit data "\r\n\r\n" with
  | h :: _ => h
  | [] => ""

/-- Is this header line one the source treats as a token header, i.e. does it
satisfy `line.startswith("X-Icinga-Test-Id")` (line 215)? -/
def isIdHeaderLine (line : String) : Bool :=
  List.isPrefixOf ("X-Icinga-Test-Id".data) line.data

/-- The inner header-line loop of `imap_search_server` (lines 213-217):
thread the running `token` value through the lines; a matching line replaces
it by `line.split("X-Icinga-Test-Id: ")[1].strip()`, which raises
`IndexError` when the separator does not occur in the line. -/
def headerLinesToken : List String → String → Except PyErr String
  | [], token => Except.ok token
  | line :: rest, token =>
    if isIdHeaderLine line then
      match (pySplit line "X-Icinga-Test-Id: ").get? 1 with
      | some v => headerLinesToken rest (pyStrip v)
      | none => Except.error PyErr.indexError
    else headerLinesToken rest token

/-- Running token value after parsing the headers of the given message ids in
order (composition of `headerLinesToken` over the fetched messages). -/
def tokensAfter (fetch : String → String) : List String → String → Except PyErr String
  | [], t => Except.ok t
  | id :: rest, t =>
    match headerLinesToken (pySplitlines (emailHeader (fetch id))) t with
    | Except.error e => Except.error e
    | Except.ok t1 => tokensAfter fetch rest t1

/-- Mutable state of the per-message loop of `imap_search_server`
(lines 190-191 and 204-231): the `token_found` status, the running `token`
value, the messages fetched and compared so far (`visited`), and the messages
marked `\Deleted` so far (`deleted`). -/
structure ScanState where
  token_found : MailFound
  token : String
  visited : List String
  deleted : List String
deriving DecidableEq, Repr

/-- Initial state of a mailbox scan (lines 190-191). -/
def initScanState : ScanState :=
  { token_found := MailFound.NOT_FOUND, token := "", visited := [], deleted := [] }

/-- The per-message loop of `imap_search_server` (lines 204-231).  For each
message id: if no match was found yet, fetch the message, parse its header
block, and compare the running token to the expected one; on a match set
`token_found` (FOUND for "INBOX", FOUND_IN_SPAM otherwise) and `break` —
note the `break` at line 225 exits before the cleanup `store` at line 231
runs for the current message.  Otherwise, and on every non-breaking
iteration, mark the message deleted when cleanup is enabled. -/
def scanLoop (fetch : String → String) (mailbox expected : String) (cleanup : Bool) :
    List String → ScanState → Except PyErr ScanState
  | [], st => Except.ok st
  | num :: rest, st =>
    if st.token_found = MailFound.NOT_FOUND then
      match headerLinesToken (pySplitlines (emailHeader (fetch num))) st.token with
      | Except.error e => Except.error e
      | Except.ok token1 =>
        if token1 = expected then
          Except.ok { st with
            token_found :=
              if mailbox = "INBOX" then MailFound.FOUND else MailFound.FOUND_IN_SPAM,
            token := token1,
            visited := st.visited ++ [num] }
        else
          scanLoop fetch mailbox expected cleanup rest
            { st with
              token := token1,
              visited := st.visited ++ [num],
              deleted := if cleanup then st.deleted ++ [num] else st.deleted }
    else
      scanLoop fetch mailbox expected cleanup rest
        { st with deleted := if cleanup then st.deleted ++ [num] else st.deleted }

/-- The responses one mailbox scan observes from the IMAP server:
`selectStatus`/`selectData` model the pair returned by `server.select`
(line 194; `selectData` is `num_msg_in_mbox[0]`, the message count on success
and the server's error text on failure), `searchStatus`/`searchData` model
`server.search(None, 'ALL')` (line 199; `searchData` is `data_mlist[0]`,
whitespace-separated message ids), and `fetch` models
`server.fetch(num, '(RFC822)')` giving the decoded message text. -/
structure ImapMailbox where
  selectStatus : String
  selectData : String
  searchStatus : String
  searchData : String
  fetch : String → String

/-- Observable outcome of one `imap_search_server` call: the returned status
plus the side effects on the server (messages fetched/compared, messages
marked deleted, whether `expunge` and `close` were issued). -/
structure ScanResult where
  outcome : MailFound
  visited : List String
  deleted : List String
  expunged : Bool
  closed : Bool
deriving DecidableEq, Repr

/-- `imap_search_server` (lines 174-237).  The select status is only used for
debug output (line 196); the code then unconditionally runs
`int(num_msg_in_mbox[0])` (line 195), which raises `ValueError` when the
select failed and the data is the server's error text.  A non-"OK" search
status returns `UNDEFINED` at line 202, before any expunge/close.  Otherwise
the message loop runs, followed by `expunge` (cleanup only) and `close`
(lines 233-235). -/
def imap_search_server (mb : ImapMailbox) (mailbox expected : String) (cleanup : Bool) :
    Except PyErr ScanResult :=
  match pyInt mb.selectData with
  | none => Except.error PyErr.valueError
  | some _ =>
    if mb.searchStatus ≠ "OK" then
      Except.ok { outcome := MailFound.UNDEFINED, visited := [], deleted := [],
                  expunged := false, closed := false }
    else
      match scanLoop mb.fetch mailbox expected cleanup (pySplitWs mb.searchData)
          initScanState with
      | Except.error e => Except.error e
      | Except.ok st =>
        Except.ok { outcome := st.token_found, visited := st.visited,
                    deleted := st.deleted, expunged := cleanup, closed := true }

/-- Events of a retrieval run: backoff sleeps (with their duration), mailbox
scans (tagged with round index and mailbox name), and the IMAP logout. -/
inductive Ev
  | sleep (t : Int)
  | scan (round : Nat) (mailbox : String)
  | logout
deriving DecidableEq, Repr

/-- Result of the inner per-mailbox loop of `imap_retrieve_mail`
(lines 164-168): an early `return status` (when a scan yields anything other
than `NOT_FOUND`), normal fall-through to the next round carrying the last
status, or an uncaught Python exception from the scan. -/
inductive InnerRes
  | early (s : MailFound)
  | cont (s : MailFound)
  | err (e : PyErr)
deriving DecidableEq, Repr

/-- The inner `for mailbox in mailboxes` loop of `imap_retrieve_mail`
(lines 164-168), in round `round`, against environment `env` (the mailbox
states this round's scans observe). -/
def innerLoop (env : String → ImapMailbox) (expected : String) (cleanup : Bool)
    (round : Nat) : List String → MailFound → InnerRes × List Ev
  | [], status => (InnerRes.cont status, [])
  | mb :: rest, _ =>
    match imap_search_server (env mb) mb expected cleanup with
    | Except.error e => (InnerRes.err e, [Ev.scan round mb])
    | Except.ok r =>
      if r.outcome ≠ MailFound.NOT_FOUND then
        (InnerRes.early r.outcome, [Ev.scan round mb])
      else
        let p := innerLoop env expected cleanup round rest r.outcome
        (p.1, Ev.scan round mb :: p.2)

/-- The outer `for i in range(0, 3)` loop of `imap_retrieve_mail`
(lines 157-171): before each round sleep `delay * pow(i+1, 2)` seconds when
positive, then scan the mailboxes in order; an early return and the final
fall-through both `logout` exactly once (lines 167 and 170); an uncaught
exception propagates without logout. -/
def roundsLoop (env : Nat → String → ImapMailbox) (delay : Int)
    (mailboxes : List String) (expected : String) (cleanup : Bool) :
    List Nat → MailFound → Except PyErr MailFound × List Ev
  | [], status => (Except.ok status, [Ev.logout])
  | i :: rest, status =>
    let currDelay := delay * (((i : Int) + 1) * ((i : Int) + 1))
    let sl := if currDelay > 0 then [Ev.sleep currDelay] else []
    match innerLoop (env i) expected cleanup i mailboxes status with
    | (InnerRes.early s, tr) => (Except.ok s, sl ++ tr ++ [Ev.logout])
    | (InnerRes.err e, tr) => (Except.error e, sl ++ tr)
    | (InnerRes.cont s, tr) =>
      let p := roundsLoop env delay mailboxes expected cleanup rest s
      (p.1, sl ++ tr ++ p.2)

/-- The mailbox search order (lines 150-155): the spam box first when the
option is truthy (a non-None, non-empty string), then always `"INBOX"`. -/
def mailboxesOf : Option String → List String
  | some s => if s = "" then ["INBOX"] else [s, "INBOX"]
  | none => ["INBOX"]

/-- `imap_retrieve_mail` (lines 124-171), abstracted over the per-round,
per-mailbox server responses `env`; the connection/login steps (lines
143-146) are external collaborators and not modelled.  Returns the final
status (or the uncaught exception) together with the event trace. -/
def imap_retrieve_mail (env : Nat → String → ImapMailbox) (delay : Int)
    (imap_spambox : Option String) (expected : String) (cleanup : Bool) :
    Except PyErr MailFound × List Ev :=
  roundsLoop env delay (mailboxesOf imap_spambox) expected cleanup
    [0, 1, 2] MailFound.NOT_FOUND

/-- Projection of an event to a (round, mailbox) scan record. -/
def evScan : Ev → Option (Nat × String)
  | Ev.scan i m => some (i, m)
  | _ => none

/-- The scans a trace performs, in order. -/
def scansOf (evs : List Ev) : List (Nat × String) :=
  evs.filterMap evScan

/-- Is this event the logout? -/
def isLogout : Ev → Bool
  | Ev.logout => true
  | _ => false

/-- Number of logout events in a trace. -/
def logoutCount (evs : List Ev) : Nat :=
  evs.countP isLogout

/-- What the tail of `main` (lines 299-310) emits for a status: the line
printed to stdout, the message sent to the debug channel, and the process
exit code.  The `else` branch of the source covers `UNDEFINED`, the only
remaining enumeration value. -/
structure OutcomeReport where
  printed : Option String
  debugMsg : Option String
  exitCode : Nat
deriving DecidableEq, Repr

/-- The final status mapping of `main` (lines 299-310), a pure function of
the status. -/
def mainOutcome : MailFound → OutcomeReport
  | MailFound.FOUND =>
    { printed := some "OK", debugMsg := none, exitCode := 0 }
  | MailFound.FOUND_IN_SPAM =>
    { printed := none, debugMsg := some "WARNING - Message found in Spam folder",
      exitCode := 1 }
  | MailFound.NOT_FOUND =>
    { printed := some "ERROR - Message not found", debugMsg := none, exitCode := 2 }
  | MailFound.UNDEFINED =>
    { printed := some "UNDEFINED - Undefined state", debugMsg := none, exitCode := 3 }

/-- A mailbox holding exactly one message, whose token header matches
`"tok123"`. -/
def mbOneMatch : ImapMailbox :=
  { selectStatus := "OK", selectData := "1", searchStatus := "OK", searchData := "1",
    fetch := fun _ => "X-Icinga-Test-Id: tok123\r\n\r\nbody" }

/-- A mailbox holding two messages: message "1" has no token header, message
"2" matches `"tok123"`. -/
def mbTwoMsgs : ImapMailbox :=
  { selectStatus := "OK", selectData := "2", searchStatus := "OK", searchData := "1 2",
    fetch := fun n =>
      if n = "1" then "Subject: Mail test\r\n\r\nbody"
      else "X-Icinga-Test-Id: tok123\r\n\r\nbody" }

/-- An empty mailbox (select and search succeed, no messages). -/
def mbEmpty : ImapMailbox :=
  { selectStatus := "OK", selectData := "0", searchStatus := "OK", searchData := "",
    fetch := fun _ => "" }

/-- A mailbox whose SEARCH command fails (`typ` is not "OK"): the scan yields
`UNDEFINED`. -/
def mbSearchFail : ImapMailbox :=
  { selectStatus := "OK", selectData := "0", searchStatus := "NO", searchData := "",
    fetch := fun _ => "" }

/-- A mailbox whose SELECT fails: the returned data is the server's error
text, on which `int(...)` raises `ValueError`. -/
def mbSelectFail : ImapMailbox :=
  { selectStatus := "NO", selectData := "[NONEXISTENT] Unknown Mailbox",
    searchStatus := "NO", searchData := "", fetch := fun _ => "" }

/-- A mailbox holding one message without any token header. -/
def mbNoHeader : ImapMailbox :=
  { selectStatus := "OK", selectData := "1", searchStatus := "OK", searchData := "1",
    fetch := fun _ => "Subject: Mail test\r\n\r\nbody" }

/-- A mailbox holding one message whose header line starts with
`X-Icinga-Test-Id` but lacks the `"X-Icinga-Test-Id: "` separator. -/
def mbMalformed : ImapMailbox :=
  { selectStatus := "OK", selectData := "1", searchStatus := "OK", searchData := "1",
    fetch := fun _ => "X-Icinga-Test-Id:abc\r\n\r\nbody" }

/-- A fetch function where message "1" carries a (non-matching) token header
and message "2" has no token header at all. -/
def fetchTokenThenPlain : String → String :=
  fun n =>
    if n = "1" then "X-Icinga-Test-Id: other\r\n\r\nbody"
    else "Subject: Mail test\r\n\r\nbody"

/-- Run environment where the spam box "Junk" has a failing SEARCH at every
round while "INBOX" always holds a matching message. -/
def envJunkUndef : Nat → String → ImapMailbox :=
  fun _ mb => if mb = "Junk" then mbSearchFail else mbOneMatch

/-- Run environment where every mailbox is empty at every round. -/
def envAllEmpty : Nat → String → ImapMailbox :=
  fun _ _ => mbEmpty

/-- Run environment where every mailbox is empty except that "INBOX" holds a
matching message from round 1 on: the first non-`NOT_FOUND` scan of a run is
the round-1 "INBOX" scan. -/
def envFoundRound1 : Nat → String → ImapMailbox :=
  fun i mbx => if i = 1 ∧ mbx = "INBOX" then mbOneMatch else mbEmpty

/-- The scan outcome of `mbOneMatch` in "INBOX" without cleanup. -/
def rOneMatchNoClean : ScanResult :=
  { outcome := MailFound.FOUND, visited := ["1"], deleted := [],
    expunged := false, closed := true }

/-- The full event trace of a three-round run with base delay `d > 0` over
the given mailbox order in which every scan returns `NOT_FOUND`. -/
def fullTrace (d : Int) (mbs : List String) : List Ev :=
  (Ev.sleep d :: mbs.map (Ev.scan 0)) ++
    (Ev.sleep (4 * d) :: mbs.map (Ev.scan 1)) ++
    (Ev.sleep (9 * d) :: mbs.map (Ev.scan 2)) ++ [Ev.logout]

/-- The complete (round, mailbox) scan order of a run whose spam box is `s`:
within each of the three rounds the spam box precedes "INBOX". -/
def roundScanOrder (s : String) : List (Nat × String) :=
  [(0, s), (0, "INBOX"), (1, s), (1, "INBOX"), (2, s), (2, "INBOX")]


/-- The scan outcome of `mbTwoMsgs` with cleanup enabled: the non-matching
message "1" is marked deleted, the matching message "2" is visited but not
marked. -/
def rTwoMsgs : ScanResult :=
  { outcome := MailFound.FOUND, visited := ["1", "2"], deleted := ["1"],
    expunged := true, closed := true }

/-- The scan outcome of a failed SEARCH command. -/
def rUndef : ScanResult :=
  { outcome := MailFound.UNDEFINED, visited := [], deleted := [],
    expunged := false, closed := false }

theorem dropLast_cons_ne {α : Type} (a : α) (l : List α) (h : l ≠ []) :
    (a :: l).dropLast = a :: l.dropLast := by
  cases l with
  | nil => exact absurd rfl h
  | cons b t => rfl

/-- A message none of whose header lines passes the `startswith` test leaves
the running token value unchanged. -/
theorem headerLinesToken_no_header (lines : List String) (t : String)
    (h : ∀ l ∈ lines, isIdHeaderLine l = false) :
    headerLinesToken lines t = Except.ok t := by
  induction lines with
  | nil => rfl
  | cons l rest ih =>
    have hl := h l (by simp)
    simp only [headerLinesToken, hl, Bool.false_eq_true, if_false]
    exact ih (fun x hx => h x (by simp [hx]))

/-- Decomposition of the per-message loop over an appended list: because the
`break` returns the current state immediately, running the loop on `a ++ b`
agrees with running it on `a` and, only when no match was found there,
continuing on `b`. -/
theorem scanLoop_append (fetch : String → String) (mailbox expected : String)
    (cleanup : Bool) (a b : List String) (st : ScanState)
    (h : st.token_found = MailFound.NOT_FOUND) :
    scanLoop fetch mailbox expected cleanup (a ++ b) st =
      (match scanLoop fetch mailbox expected cleanup a st with
       | Except.error e => Except.error e
       | Except.ok st1 =>
         if st1.token_found = MailFound.NOT_FOUND then
           scanLoop fetch mailbox expected cleanup b st1
         else Except.ok st1) := by
  induction a generalizing st with
  | nil => simp [scanLoop, h]
  | cons num rest ih =>
    simp only [List.cons_append, scanLoop, h, if_true]
    cases hp : headerLinesToken (pySplitlines (emailHeader (fetch num))) st.token with
    | error e => simp
    | ok token1 =>
      by_cases he : token1 = expected
      · simp only [he, if_true]
        by_cases hm : mailbox = "INBOX" <;> simp [hm]
      · simp only [he, if_false]
        exact ih _ rfl

/-- While the scan state is still `NOT_FOUND`, the running token value never
equals the expected token (else the comparison right after parsing would have
matched and broken out). -/
theorem scanLoop_token_ne (fetch : String → String) (mailbox expected : String)
    (cleanup : Bool) (ids : List String) (st st1 : ScanState)
    (h0 : st.token_found = MailFound.NOT_FOUND)
    (hne : st.token ≠ expected)
    (h : scanLoop fetch mailbox expected cleanup ids st = Except.ok st1)
    (h1 : st1.token_found = MailFound.NOT_FOUND) :
    st1.token ≠ expected := by
  induction ids generalizing st with
  | nil =>
    simp only [scanLoop, Except.ok.injEq] at h
    exact h ▸ hne
  | cons num rest ih =>
    simp only [scanLoop, h0, if_true] at h
    cases hp : headerLinesToken (pySplitlines (emailHeader (fetch num))) st.token with
    | error e => rw [hp] at h; exact absurd h (by simp)
    | ok token1 =>
      rw [hp] at h
      by_cases he : token1 = expected
      · simp only [he, if_true, Except.ok.injEq] at h
        rw [← h] at h1
        by_cases hm : mailbox = "INBOX" <;> simp [hm] at h1
      · simp only [he, if_false] at h
        exact ih _ rfl he h

/-- Structural characterisation of a successful per-message loop run started
in the `NOT_FOUND` state: the visited messages form a prefix `pre` of the id
list, the running token is the fold of the header parses over `pre`, and
either no match occurred (`pre` is the whole list; with cleanup every visited
message was marked) or a match occurred at the last visited message (the
outcome is determined by whether the mailbox is "INBOX", the token equals the
expected one, and with cleanup every visited message except the matched last
one was marked). -/
theorem scanLoop_spec (fetch : String → String) (mailbox expected : String)
    (cleanup : Bool) (ids : List String) (st st1 : ScanState)
    (h0 : st.token_found = MailFound.NOT_FOUND)
    (h : scanLoop fetch mailbox expected cleanup ids st = Except.ok st1) :
    ∃ pre post, ids = pre ++ post ∧
      st1.visited = st.visited ++ pre ∧
      tokensAfter fetch pre st.token = Except.ok st1.token ∧
      ((st1.token_found = MailFound.NOT_FOUND ∧ post = [] ∧
          st1.deleted = st.deleted ++ (if cleanup then pre else [])) ∨
       (st1.token_found =
            (if mailbox = "INBOX" then MailFound.FOUND else MailFound.FOUND_IN_SPAM) ∧
          st1.token_found ≠ MailFound.NOT_FOUND ∧ pre ≠ [] ∧ st1.token = expected ∧
          st1.deleted = st.deleted ++ (if cleanup then pre.dropLast else []))) := by
  induction ids generalizing st with
  | nil =>
    simp only [scanLoop, Except.ok.injEq] at h
    subst h
    refine ⟨[], [], by simp, by simp, rfl, Or.inl ⟨h0, rfl, by cases cleanup <;> simp⟩⟩
  | cons num rest ih =>
    simp only [scanLoop, h0, if_true] at h
    cases hp : headerLinesToken (pySplitlines (emailHeader (fetch num))) st.token with
    | error e => rw [hp] at h; exact absurd h (by simp)
    | ok token1 =>
      rw [hp] at h
      by_cases he : token1 = expected
      · simp only [he, if_true, Except.ok.injEq] at h
        subst h
        refine ⟨[num], rest, by simp, by simp, ?_, Or.inr ⟨rfl, ?_, by simp, rfl, ?_⟩⟩
        · simp [tokensAfter, hp, he]
        · by_cases hm : mailbox = "INBOX" <;> simp [hm]
        · simp
      · simp only [he, if_false] at h
        obtain ⟨pre1, post1, hsplit, hvis, htok, hdisj⟩ := ih _ rfl h
        refine ⟨num :: pre1, post1, by simp [hsplit], by simpa using hvis, ?_, ?_⟩
        · simp [tokensAfter, hp]; exact htok
        · rcases hdisj with ⟨ha, hb, hc⟩ | ⟨ha, hb, hc, hd, hdel⟩
          · refine Or.inl ⟨ha, hb, ?_⟩
            cases cleanup <;> simp_all
          · refine Or.inr ⟨ha, hb, by simp, hd, ?_⟩
            rw [dropLast_cons_ne num pre1 hc]
            cases cleanup <;> simp_all

/-- The early-return branch of the inner mailbox loop is taken only for a
status other than `NOT_FOUND`. -/
theorem innerLoop_early_ne (env : String → ImapMailbox) (expected : String)
    (cleanup : Bool) (round : Nat) (mbs : List String) (st s : MailFound)
    (h : (innerLoop env expected cleanup round mbs st).1 = InnerRes.early s) :
    s ≠ MailFound.NOT_FOUND := by
  induction mbs generalizing st with
  | nil => simp [innerLoop] at h
  | cons mb rest ih =>
    simp only [innerLoop] at h
    cases hscan : imap_search_server (env mb) mb expected cleanup with
    | error e => rw [hscan] at h; simp at h
    | ok r =>
      rw [hscan] at h
      by_cases ho : r.outcome = MailFound.NOT_FOUND
      · simp only [ho, ne_eq, not_true_eq_false, if_false] at h
        exact ih _ h
      · simp only [ne_eq, ho, not_false_eq_true, if_true, InnerRes.early.injEq] at h
        exact h ▸ ho

/-- Trace shape of the inner mailbox loop: the scanned mailboxes are a prefix
of the schedule list, the whole list when the loop falls through. -/
theorem innerLoop_trace (env : String → ImapMailbox) (expected : String)
    (cleanup : Bool) (round : Nat) (mbs : List String) (st : MailFound) :
    ∃ p t, p ++ t = mbs ∧
      (innerLoop env expected cleanup round mbs st).2 = p.map (Ev.scan round) ∧
      (∀ s, (innerLoop env expected cleanup round mbs st).1 = InnerRes.cont s →
        p = mbs) := by
  induction mbs generalizing st with
  | nil => exact ⟨[], [], rfl, rfl, fun s _ => rfl⟩
  | cons mb rest ih =>
    cases hscan : imap_search_server (env mb) mb expected cleanup with
    | error e =>
      refine ⟨[mb], rest, rfl, ?_, ?_⟩
      · simp [innerLoop, hscan]
      · intro s hs; simp [innerLoop, hscan] at hs
    | ok r =>
      by_cases ho : r.outcome = MailFound.NOT_FOUND
      · obtain ⟨p1, t1, hp1, htr1, hcont1⟩ := ih r.outcome
        rw [ho] at htr1 hcont1
        refine ⟨mb :: p1, t1, by simp [hp1], ?_, ?_⟩
        · simp [innerLoop, hscan, ho, htr1]
        · intro s hs
          simp only [innerLoop, hscan, ho, ne_eq, not_true_eq_false, if_false] at hs
          rw [hcont1 s hs]
      · refine ⟨[mb], rest, rfl, ?_, ?_⟩
        · simp [innerLoop, hscan, ho]
        · intro s hs; simp [innerLoop, hscan, ho] at hs

theorem scansOf_append (a b : List Ev) : scansOf (a ++ b) = scansOf a ++ scansOf b := by
  simp [scansOf]

theorem scansOf_scan_map (round : Nat) (p : List String) :
    scansOf (p.map (Ev.scan round)) = p.map fun m => (round, m) := by
  induction p with
  | nil => rfl
  | cons a l ih => simp [scansOf, evScan] at ih ⊢; exact ih

theorem scansOf_sleep_ite (c : Prop) [Decidable c] (d : Int) :
    scansOf (if c then [Ev.sleep d] else []) = [] := by
  split <;> simp [scansOf, evScan]

theorem logoutCount_append (a b : List Ev) :
    logoutCount (a ++ b) = logoutCount a + logoutCount b := by
  simp [logoutCount, List.countP_append]

theorem scansOf_logout_single : scansOf [Ev.logout] = [] := rfl

theorem logoutCount_scan_map (round : Nat) (p : List String) :
    logoutCount (p.map (Ev.scan round)) = 0 := by
  simp [logoutCount, List.countP_eq_zero, isLogout]

theorem logoutCount_sleep_ite (c : Prop) [Decidable c] (d : Int) :
    logoutCount (if c then [Ev.sleep d] else []) = 0 := by
  split <;> simp [logoutCount, List.countP_cons, isLogout]

/-- When the whole retry loop falls through with `NOT_FOUND`, its trace is
exactly: for each round, the backoff sleep (when positive) followed by a scan
of every mailbox in order, and a single final logout. -/
theorem roundsLoop_notfound_trace (env : Nat → String → ImapMailbox) (delay : Int)
    (mailboxes : List String) (expected : String) (cleanup : Bool)
    (rounds : List Nat) (st : MailFound)
    (h : (roundsLoop env delay mailboxes expected cleanup rounds st).1 =
      Except.ok MailFound.NOT_FOUND) :
    (roundsLoop env delay mailboxes expected cleanup rounds st).2 =
      (rounds.map fun (i : Nat) =>
        (if delay * (((i : Int) + 1) * ((i : Int) + 1)) > 0
          then [Ev.sleep (delay * (((i : Int) + 1) * ((i : Int) + 1)))] else []) ++
        mailboxes.map (Ev.scan i)).flatten ++ [Ev.logout] := by
  induction rounds generalizing st with
  | nil => simp [roundsLoop]
  | cons i rest ih =>
    obtain ⟨p1, t1, hp1, htr1, hcont1⟩ :=
      innerLoop_trace (env i) expected cleanup i mailboxes st
    rcases hh : innerLoop (env i) expected cleanup i mailboxes st with ⟨res, tr⟩
    rw [hh] at htr1 hcont1
    simp only at htr1
    cases res with
    | early u =>
      have hne := innerLoop_early_ne (env i) expected cleanup i mailboxes st u
        (by rw [hh])
      have hr : roundsLoop env delay mailboxes expected cleanup (i :: rest) st =
          (Except.ok u,
            (if delay * (((i : Int) + 1) * ((i : Int) + 1)) > 0
              then [Ev.sleep (delay * (((i : Int) + 1) * ((i : Int) + 1)))] else []) ++
            tr ++ [Ev.logout]) := by
        simp only [roundsLoop, hh]
      rw [hr] at h
      exact absurd (by simpa using h) hne
    | err e =>
      have hr : roundsLoop env delay mailboxes expected cleanup (i :: rest) st =
          (Except.error e,
            (if delay * (((i : Int) + 1) * ((i : Int) + 1)) > 0
              then [Ev.sleep (delay * (((i : Int) + 1) * ((i : Int) + 1)))] else []) ++
            tr) := by
        simp only [roundsLoop, hh]
      rw [hr] at h
      simp at h
    | cont u =>
      have hr : roundsLoop env delay mailboxes expected cleanup (i :: rest) st =
          ((roundsLoop env delay mailboxes expected cleanup rest u).1,
            (if delay * (((i : Int) + 1) * ((i : Int) + 1)) > 0
              then [Ev.sleep (delay * (((i : Int) + 1) * ((i : Int) + 1)))] else []) ++
            tr ++ (roundsLoop env delay mailboxes expected cleanup rest u).2) := by
        simp only [roundsLoop, hh]
      rw [hr] at h ⊢
      simp only at h ⊢
      have hfull : p1 = mailboxes := hcont1 u rfl
      rw [ih u h, htr1, hfull]
      simp [List.append_assoc]

/-- The scans any retry-loop trace performs form a prefix of the full
round-by-round, mailbox-by-mailbox schedule. -/
theorem roundsLoop_scans (env : Nat → String → ImapMailbox) (delay : Int)
    (mailboxes : List String) (expected : String) (cleanup : Bool)
    (rounds : List Nat) (st : MailFound) :
    ∃ t, scansOf (roundsLoop env delay mailboxes expected cleanup rounds st).2 ++ t =
      (rounds.map fun (i : Nat) => mailboxes.map fun m => (i, m)).flatten := by
  induction rounds generalizing st with
  | nil => exact ⟨[], by simp [roundsLoop, scansOf_logout_single]⟩
  | cons i rest ih =>
    obtain ⟨p1, t1, hp1, htr1, hcont1⟩ :=
      innerLoop_trace (env i) expected cleanup i mailboxes st
    rcases hh : innerLoop (env i) expected cleanup i mailboxes st with ⟨res, tr⟩
    rw [hh] at htr1 hcont1
    simp only at htr1
    have hmap : (p1.map fun m => (i, m)) ++ (t1.map fun m => (i, m)) =
        mailboxes.map fun m => (i, m) := by rw [← List.map_append, hp1]
    cases res with
    | early u =>
      have hr : roundsLoop env delay mailboxes expected cleanup (i :: rest) st =
          (Except.ok u,
            (if delay * (((i : Int) + 1) * ((i : Int) + 1)) > 0
              then [Ev.sleep (delay * (((i : Int) + 1) * ((i : Int) + 1)))] else []) ++
            tr ++ [Ev.logout]) := by
        simp only [roundsLoop, hh]
      refine ⟨(t1.map fun m => (i, m)) ++
        (rest.map fun (j : Nat) => mailboxes.map fun m => (j, m)).flatten, ?_⟩
      rw [hr]
      simp only [scansOf_append, scansOf_sleep_ite, htr1, scansOf_scan_map,
        scansOf_logout_single, List.map_cons, List.flatten_cons, List.nil_append,
        List.append_nil, List.append_assoc]
      rw [← List.append_assoc, hmap]
    | err e =>
      have hr : roundsLoop env delay mailboxes expected cleanup (i :: rest) st =
          (Except.error e,
            (if delay * (((i : Int) + 1) * ((i : Int) + 1)) > 0
              then [Ev.sleep (delay * (((i : Int) + 1) * ((i : Int) + 1)))] else []) ++
            tr) := by
        simp only [roundsLoop, hh]
      refine ⟨(t1.map fun m => (i, m)) ++
        (rest.map fun (j : Nat) => mailboxes.map fun m => (j, m)).flatten, ?_⟩
      rw [hr]
      simp only [scansOf_append, scansOf_sleep_ite, htr1, scansOf_scan_map,
        List.map_cons, List.flatten_cons, List.nil_append, List.append_assoc]
      rw [← List.append_assoc, hmap]
    | cont u =>
      have hr : roundsLoop env delay mailboxes expected cleanup (i :: rest) st =
          ((roundsLoop env delay mailboxes expected cleanup rest u).1,
            (if delay * (((i : Int) + 1) * ((i : Int) + 1)) > 0
              then [Ev.sleep (delay * (((i : Int) + 1) * ((i : Int) + 1)))] else []) ++
            tr ++ (roundsLoop env delay mailboxes expected cleanup rest u).2) := by
        simp only [roundsLoop, hh]
      obtain ⟨t2, ht2⟩ := ih u
      have hfull : p1 = mailboxes := hcont1 u rfl
      refine ⟨t2, ?_⟩
      rw [hr]
      simp only [scansOf_append, scansOf_sleep_ite, htr1, scansOf_scan_map, hfull,
        List.map_cons, List.flatten_cons, List.nil_append, List.append_assoc]
      rw [ht2]

/-- Every normally-returning retry loop logs out exactly once, as its final
action. -/
theorem roundsLoop_logout (env : Nat → String → ImapMailbox) (delay : Int)
    (mailboxes : List String) (expected : String) (cleanup : Bool)
    (rounds : List Nat) (st : MailFound) (s : MailFound)
    (h : (roundsLoop env delay mailboxes expected cleanup rounds st).1 = Except.ok s) :
    logoutCount (roundsLoop env delay mailboxes expected cleanup rounds st).2 = 1 ∧
    ∃ t, (roundsLoop env delay mailboxes expected cleanup rounds st).2 =
      t ++ [Ev.logout] := by
  induction rounds generalizing st with
  | nil => exact ⟨rfl, [], rfl⟩
  | cons i rest ih =>
    obtain ⟨p1, t1, hp1, htr1, hcont1⟩ :=
      innerLoop_trace (env i) expected cleanup i mailboxes st
    rcases hh : innerLoop (env i) expected cleanup i mailboxes st with ⟨res, tr⟩
    rw [hh] at htr1 hcont1
    simp only at htr1
    cases res with
    | early u =>
      have hr : roundsLoop env delay mailboxes expected cleanup (i :: rest) st =
          (Except.ok u,
            (if delay * (((i : Int) + 1) * ((i : Int) + 1)) > 0
              then [Ev.sleep (delay * (((i : Int) + 1) * ((i : Int) + 1)))] else []) ++
            tr ++ [Ev.logout]) := by
        simp only [roundsLoop, hh]
      rw [hr]
      constructor
      · simp only [logoutCount_append, logoutCount_sleep_ite, htr1,
          logoutCount_scan_map]
        rfl
      · exact ⟨_, rfl⟩
    | err e =>
      have hr : roundsLoop env delay mailboxes expected cleanup (i :: rest) st =
          (Except.error e,
            (if delay * (((i : Int) + 1) * ((i : Int) + 1)) > 0
              then [Ev.sleep (delay * (((i : Int) + 1) * ((i : Int) + 1)))] else []) ++
            tr) := by
        simp only [roundsLoop, hh]
      rw [hr] at h
      simp at h
    | cont u =>
      have hr : roundsLoop env delay mailboxes expected cleanup (i :: rest) st =
          ((roundsLoop env delay mailboxes expected cleanup rest u).1,
            (if delay * (((i : Int) + 1) * ((i : Int) + 1)) > 0
              then [Ev.sleep (delay * (((i : Int) + 1) * ((i : Int) + 1)))] else []) ++
            tr ++ (roundsLoop env delay mailboxes expected cleanup rest u).2) := by
        simp only [roundsLoop, hh]
      rw [hr] at h ⊢
      simp only at h ⊢
      obtain ⟨hcount, t2, ht2⟩ := ih u h
      constructor
      · simp only [logoutCount_append, logoutCount_sleep_ite, htr1,
          logoutCount_scan_map, hcount]
      · refine ⟨(if delay * (((i : Int) + 1) * ((i : Int) + 1)) > 0
          then [Ev.sleep (delay * (((i : Int) + 1) * ((i : Int) + 1)))] else []) ++
          tr ++ t2, ?_⟩
        rw [ht2, List.append_assoc, List.append_assoc, List.append_assoc]

/-- A round whose every scan succeeds with `NOT_FOUND` falls through the
inner mailbox loop, scanning every mailbox in order. -/
theorem innerLoop_all_notfound (env : String → ImapMailbox) (expected : String)
    (cleanup : Bool) (round : Nat) (mbs : List String) :
    ∀ st : MailFound,
    (∀ m ∈ mbs, ∃ rr, imap_search_server (env m) m expected cleanup =
      Except.ok rr ∧ rr.outcome = MailFound.NOT_FOUND) →
    ∃ s, innerLoop env expected cleanup round mbs st =
      (InnerRes.cont s, mbs.map (Ev.scan round)) := by
  induction mbs with
  | nil => exact fun st _ => ⟨st, rfl⟩
  | cons mb rest ih =>
    intro st h
    obtain ⟨rr, hscan, hout⟩ := h mb (by simp)
    obtain ⟨s, hs⟩ := ih rr.outcome (fun m hm => h m (by simp [hm]))
    rw [hout] at hs
    refine ⟨s, ?_⟩
    simp [innerLoop, hscan, hout, hs]

/-- When every mailbox before `mb` in this round's order yields `NOT_FOUND`
and the scan of `mb` yields any other outcome, the inner loop returns early
with that outcome, having scanned exactly the mailboxes up to and including
`mb` — none after it. -/
theorem innerLoop_first_hit (env : String → ImapMailbox) (expected : String)
    (cleanup : Bool) (round : Nat) (mb : String) (mbs2 : List String)
    (r : ScanResult)
    (hscan : imap_search_server (env mb) mb expected cleanup = Except.ok r)
    (hout : r.outcome ≠ MailFound.NOT_FOUND) :
    ∀ mbs1 : List String,
    (∀ m ∈ mbs1, ∃ rr, imap_search_server (env m) m expected cleanup =
      Except.ok rr ∧ rr.outcome = MailFound.NOT_FOUND) →
    ∀ st : MailFound,
    innerLoop env expected cleanup round (mbs1 ++ mb :: mbs2) st =
      (InnerRes.early r.outcome, (mbs1 ++ [mb]).map (Ev.scan round)) := by
  intro mbs1
  induction mbs1 with
  | nil =>
    intro _ st
    simp [innerLoop, hscan, hout]
  | cons m ms ih =>
    intro hpre st
    obtain ⟨rr, hscanm, houtm⟩ := hpre m (by simp)
    have ih2 := ih (fun x hx => hpre x (by simp [hx])) rr.outcome
    rw [houtm] at ih2
    simp [List.cons_append, innerLoop, hscanm, houtm, ih2]

/-- First-hit characterisation of the retry loop: if every scan scheduled in
the rounds before `i` yields `NOT_FOUND`, every mailbox of round `i` before
`mb` yields `NOT_FOUND`, and the round-`i` scan of `mb` yields any other
outcome, the loop returns that outcome at once — the trace shows the earlier
full rounds, then round `i` stopping at `mb`, then the logout: no later
mailbox of round `i` and no later round is ever scanned. -/
theorem roundsLoop_first_hit (env : Nat → String → ImapMailbox) (delay : Int)
    (mailboxes : List String) (expected : String) (cleanup : Bool)
    (i : Nat) (rounds2 : List Nat) (mbs1 : List String) (mb : String)
    (mbs2 : List String) (r : ScanResult)
    (hmbs : mailboxes = mbs1 ++ mb :: mbs2)
    (hpre : ∀ m ∈ mbs1, ∃ rr, imap_search_server (env i m) m expected cleanup =
      Except.ok rr ∧ rr.outcome = MailFound.NOT_FOUND)
    (hscan : imap_search_server (env i mb) mb expected cleanup = Except.ok r)
    (hout : r.outcome ≠ MailFound.NOT_FOUND) :
    ∀ rounds1 : List Nat,
    (∀ j ∈ rounds1, ∀ m ∈ mailboxes, ∃ rr,
      imap_search_server (env j m) m expected cleanup = Except.ok rr ∧
        rr.outcome = MailFound.NOT_FOUND) →
    ∀ st : MailFound,
    roundsLoop env delay mailboxes expected cleanup (rounds1 ++ i :: rounds2) st =
      (Except.ok r.outcome,
        (rounds1.map fun (j : Nat) =>
          (if delay * (((j : Int) + 1) * ((j : Int) + 1)) > 0
            then [Ev.sleep (delay * (((j : Int) + 1) * ((j : Int) + 1)))] else []) ++
          mailboxes.map (Ev.scan j)).flatten ++
        ((if delay * (((i : Int) + 1) * ((i : Int) + 1)) > 0
          then [Ev.sleep (delay * (((i : Int) + 1) * ((i : Int) + 1)))] else []) ++
         ((mbs1 ++ [mb]).map (Ev.scan i) ++ [Ev.logout]))) := by
  subst hmbs
  intro rounds1
  induction rounds1 with
  | nil =>
    intro _ st
    have hinner := innerLoop_first_hit (env i) expected cleanup i mb mbs2 r
      hscan hout mbs1 hpre st
    have hr : roundsLoop env delay (mbs1 ++ mb :: mbs2) expected cleanup
        (i :: rounds2) st =
        (Except.ok r.outcome,
          (if delay * (((i : Int) + 1) * ((i : Int) + 1)) > 0
            then [Ev.sleep (delay * (((i : Int) + 1) * ((i : Int) + 1)))] else []) ++
          (mbs1 ++ [mb]).map (Ev.scan i) ++ [Ev.logout]) := by
      simp only [roundsLoop, hinner]
    rw [List.nil_append, hr]
    simp [List.append_assoc]
  | cons j js ih =>
    intro hall st
    obtain ⟨s1, hinner1⟩ := innerLoop_all_notfound (env j) expected cleanup j
      (mbs1 ++ mb :: mbs2) st (fun m hm => hall j (by simp) m hm)
    have hr : roundsLoop env delay (mbs1 ++ mb :: mbs2) expected cleanup
        ((j :: js) ++ i :: rounds2) st =
        ((roundsLoop env delay (mbs1 ++ mb :: mbs2) expected cleanup
            (js ++ i :: rounds2) s1).1,
          (if delay * (((j : Int) + 1) * ((j : Int) + 1)) > 0
            then [Ev.sleep (delay * (((j : Int) + 1) * ((j : Int) + 1)))] else []) ++
          (mbs1 ++ mb :: mbs2).map (Ev.scan j) ++
          (roundsLoop env delay (mbs1 ++ mb :: mbs2) expected cleanup
            (js ++ i :: rounds2) s1).2) := by
      simp only [List.cons_append, roundsLoop, hinner1]
      rfl
    rw [hr, ih (fun x hx m hm => hall x (by simp [hx]) m hm) s1]
    simp [List.append_assoc]

/-- Characterisation of a normally-returning mailbox scan that got past the
search command: the visited messages are a prefix of the server-provided id
list, and either no message matched (all ids visited; with cleanup all of
them marked) or the last visited message matched (outcome fixed by the
mailbox name, running token equal to the expected one; with cleanup all
visited messages except the matched one marked). -/
theorem imap_search_server_ok_spec (mb : ImapMailbox) (mailbox expected : String)
    (cleanup : Bool) (r : ScanResult)
    (h : imap_search_server mb mailbox expected cleanup = Except.ok r)
    (hdef : r.outcome ≠ MailFound.UNDEFINED) :
    r.expunged = cleanup ∧ r.closed = true ∧
    ∃ pre post, pySplitWs mb.searchData = pre ++ post ∧ r.visited = pre ∧
      ((r.outcome = MailFound.NOT_FOUND ∧ post = [] ∧
          r.deleted = (if cleanup then pre else [])) ∨
       (r.outcome =
            (if mailbox = "INBOX" then MailFound.FOUND else MailFound.FOUND_IN_SPAM) ∧
          r.outcome ≠ MailFound.NOT_FOUND ∧ pre ≠ [] ∧
          tokensAfter mb.fetch pre "" = Except.ok expected ∧
          r.deleted = (if cleanup then pre.dropLast else []))) := by
  rw [imap_search_server] at h
  cases hpi : pyInt mb.selectData with
  | none => rw [hpi] at h; exact absurd h (by simp)
  | some n =>
    rw [hpi] at h
    by_cases hst : mb.searchStatus = "OK"
    · simp only [hst, ne_eq, not_true_eq_false, if_false] at h
      cases hsl : scanLoop mb.fetch mailbox expected cleanup
          (pySplitWs mb.searchData) initScanState with
      | error e => rw [hsl] at h; exact absurd h (by simp)
      | ok st1 =>
        rw [hsl] at h
        simp only [Except.ok.injEq] at h
        obtain ⟨pre, post, hsplit, hvis, htok, hdisj⟩ :=
          scanLoop_spec mb.fetch mailbox expected cleanup
            (pySplitWs mb.searchData) initScanState st1 rfl hsl
        subst h
        simp only [initScanState, List.nil_append] at hvis htok
        refine ⟨rfl, rfl, pre, post, hsplit, hvis, ?_⟩
        rcases hdisj with ⟨ha, hb, hc⟩ | ⟨ha, hb, hc, hd, he⟩
        · exact Or.inl ⟨ha, hb, by simpa [initScanState] using hc⟩
        · refine Or.inr ⟨ha, hb, hc, ?_, by simpa [initScanState] using he⟩
          rw [htok, hd]
    · simp only [hst, ne_eq, not_false_eq_true, if_true, Except.ok.injEq] at h
      rw [← h] at hdef
      exact absurd rfl hdef

/-- Claim C1, counterexample: scanning a mailbox whose only message matches,
with cleanup enabled, visits the matching message "1" but leaves the deleted
set empty — the `break` at line 225 exits the loop before the cleanup store
at line 231 runs for the matched message, so "up to and including the
message whose token matches" is not marked deleted. -/
theorem c1_counterexample :
    imap_search_server mbOneMatch "INBOX" "tok123" true =
      Except.ok { outcome := MailFound.FOUND, visited := ["1"], deleted := [],
                  expunged := true, closed := true } ∧
    ¬ ("1" ∈ ({ outcome := MailFound.FOUND, visited := ["1"], deleted := [],
                expunged := true, closed := true : ScanResult }).deleted) :=
  ⟨rfl, by decide⟩

/-- Claim C1 (corrected): with cleanup enabled, every message visited
strictly before the matching message (every visited message when there is no
match) is marked deleted, and the mailbox is purged and closed; the matching
message itself, though visited, is not marked.  With cleanup disabled, no
message is marked and no purge is issued. -/
theorem c1_cleanup_amended (mb : ImapMailbox) (mailbox expected : String)
    (cleanup : Bool) (r : ScanResult)
    (h : imap_search_server mb mailbox expected cleanup = Except.ok r)
    (hdef : r.outcome ≠ MailFound.UNDEFINED) :
    (cleanup = true → r.expunged = true ∧ r.closed = true ∧
      r.deleted = (if r.outcome = MailFound.NOT_FOUND then r.visited
        else r.visited.dropLast)) ∧
    (cleanup = false → r.deleted = [] ∧ r.expunged = false ∧ r.closed = true) := by
  obtain ⟨hexp, hcl, pre, post, hsplit, hvis, hdisj⟩ :=
    imap_search_server_ok_spec mb mailbox expected cleanup r h hdef
  rcases hdisj with ⟨ha, hb, hc⟩ | ⟨ha, hb, hc, hd, he⟩
  · constructor
    · intro hcu
      subst hcu
      exact ⟨hexp, hcl, by rw [hc, ha, if_pos rfl, hvis, if_pos rfl]⟩
    · intro hcu
      subst hcu
      exact ⟨by rw [hc, if_neg (by simp)], hexp, hcl⟩
  · constructor
    · intro hcu
      subst hcu
      exact ⟨hexp, hcl, by rw [he, if_pos rfl, hvis, if_neg hb]⟩
    · intro hcu
      subst hcu
      exact ⟨by rw [he, if_neg (by simp)], hexp, hcl⟩

/-- Claim C1, witness: the amended claim at the two-message mailbox with
cleanup enabled — only the message before the match is marked. -/
theorem c1_witness :
    (imap_search_server mbTwoMsgs "INBOX" "tok123" true = Except.ok rTwoMsgs ∧
      rTwoMsgs.outcome ≠ MailFound.UNDEFINED) ∧
    ((true = true → rTwoMsgs.expunged = true ∧ rTwoMsgs.closed = true ∧
        rTwoMsgs.deleted = (if rTwoMsgs.outcome = MailFound.NOT_FOUND then
          rTwoMsgs.visited else rTwoMsgs.visited.dropLast)) ∧
      (true = false → rTwoMsgs.deleted = [] ∧ rTwoMsgs.expunged = false ∧
        rTwoMsgs.closed = true)) :=
  ⟨⟨rfl, by decide⟩,
    c1_cleanup_amended mbTwoMsgs "INBOX" "tok123" true rTwoMsgs rfl (by decide)⟩

/-- Claim C3 (code bug): when selecting the mailbox fails, the returned data
is the server's error text, not a message count; line 195 of the source runs
`int(...)` on it and raises an uncaught `ValueError`, so the scan does not
yield `Undefined` — the run crashes (no `UNDEFINED - Undefined state` line,
no exit code 3, and no logout), as evaluated here on a failing select
response. -/
theorem c3_select_failure :
    pyInt mbSelectFail.selectData = none ∧
    imap_search_server mbSelectFail "INBOX" "tok123" false =
      Except.error PyErr.valueError ∧
    imap_retrieve_mail (fun _ _ => mbSelectFail) 10 none "tok123" false =
      (Except.error PyErr.valueError, [Ev.sleep 10, Ev.scan 0 "INBOX"]) :=
  ⟨rfl, rfl, rfl⟩

/-- Claim C6 (confirmed): the messages compared form a prefix of the mailbox
(all of it when the outcome is `NOT_FOUND`, i.e. comparisons stop exactly at
a match), and on a match the outcome is `FOUND` precisely when the scanned
mailbox is the primary "INBOX" (`FOUND_IN_SPAM` otherwise) and the running
token — the last `X-Icinga-Test-Id` header value with surrounding whitespace
trimmed, per `tokensAfter`/`headerLinesToken` — is exactly equal to the
expected token. -/
theorem c6_token_match (mb : ImapMailbox) (mailbox expected : String)
    (cleanup : Bool) (r : ScanResult)
    (h : imap_search_server mb mailbox expected cleanup = Except.ok r)
    (hdef : r.outcome ≠ MailFound.UNDEFINED) :
    (∃ t, r.visited ++ t = pySplitWs mb.searchData) ∧
    (r.outcome = MailFound.NOT_FOUND → r.visited = pySplitWs mb.searchData) ∧
    (r.outcome ≠ MailFound.NOT_FOUND →
      r.outcome =
        (if mailbox = "INBOX" then MailFound.FOUND else MailFound.FOUND_IN_SPAM) ∧
      r.visited ≠ [] ∧
      tokensAfter mb.fetch r.visited "" = Except.ok expected) := by
  obtain ⟨hexp, hcl, pre, post, hsplit, hvis, hdisj⟩ :=
    imap_search_server_ok_spec mb mailbox expected cleanup r h hdef
  rcases hdisj with ⟨ha, hb, hc⟩ | ⟨ha, hb, hc, hd, he⟩
  · refine ⟨⟨post, by rw [hvis, hsplit]⟩, ?_, ?_⟩
    · intro _
      rw [hvis, hsplit, hb, List.append_nil]
    · intro hcon
      exact absurd ha hcon
  · refine ⟨⟨post, by rw [hvis, hsplit]⟩, ?_, ?_⟩
    · intro hcon
      exact absurd hcon hb
    · intro _
      exact ⟨ha, by rw [hvis]; exact hc, by rw [hvis]; exact hd⟩

/-- Claim C6, witness: the two-message mailbox — both messages are compared,
the second matches, the outcome is `FOUND` in "INBOX", and the running token
equals the expected token. -/
theorem c6_witness :
    (imap_search_server mbTwoMsgs "INBOX" "tok123" true = Except.ok rTwoMsgs ∧
      rTwoMsgs.outcome ≠ MailFound.UNDEFINED) ∧
    ((∃ t, rTwoMsgs.visited ++ t = pySplitWs mbTwoMsgs.searchData) ∧
      (rTwoMsgs.outcome = MailFound.NOT_FOUND →
        rTwoMsgs.visited = pySplitWs mbTwoMsgs.searchData) ∧
      (rTwoMsgs.outcome ≠ MailFound.NOT_FOUND →
        rTwoMsgs.outcome =
          (if "INBOX" = "INBOX" then MailFound.FOUND else MailFound.FOUND_IN_SPAM) ∧
        rTwoMsgs.visited ≠ [] ∧
        tokensAfter mbTwoMsgs.fetch rTwoMsgs.visited "" = Except.ok "tok123")) :=
  ⟨⟨rfl, by decide⟩,
    c6_token_match mbTwoMsgs "INBOX" "tok123" true rTwoMsgs rfl (by decide)⟩

/-- Claim C8 (confirmed): the final status mapping of `main` — `FOUND` prints
"OK" and exits 0; `FOUND_IN_SPAM` emits only a debug-channel warning and
exits 1; `NOT_FOUND` prints "ERROR - Message not found" and exits 2;
`UNDEFINED` (the `else` branch) prints "UNDEFINED - Undefined state" and
exits 3.  `mainOutcome` is a pure function, so the mapping has no side effect
beyond the emitted message. -/
theorem c8_outcome_mapping :
    mainOutcome MailFound.FOUND =
      { printed := some "OK", debugMsg := none, exitCode := 0 } ∧
    mainOutcome MailFound.FOUND_IN_SPAM =
      { printed := none, debugMsg := some "WARNING - Message found in Spam folder",
        exitCode := 1 } ∧
    mainOutcome MailFound.NOT_FOUND =
      { printed := some "ERROR - Message not found", debugMsg := none, exitCode := 2 } ∧
    mainOutcome MailFound.UNDEFINED =
      { printed := some "UNDEFINED - Undefined state", debugMsg := none,
        exitCode := 3 } :=
  ⟨rfl, rfl, rfl, rfl⟩

/-- Claim C10 (confirmed): a message whose header line starts with
`X-Icinga-Test-Id` but lacks the `"X-Icinga-Test-Id: "` separator makes the
parse at line 216 index element 1 of a one-element split, raising
`IndexError`: the scan is not total, and such a message is not treated as
merely non-matching. -/
theorem c10_parse_not_total :
    isIdHeaderLine "X-Icinga-Test-Id:abc" = true ∧
    pySplit "X-Icinga-Test-Id:abc" "X-Icinga-Test-Id: " = ["X-Icinga-Test-Id:abc"] ∧
    imap_search_server mbMalformed "INBOX" "tok123" false =
      Except.error PyErr.indexError :=
  ⟨rfl, rfl, rfl⟩

/-- Claim C2, counterexample: in a run whose spam box "Junk" has a failing
SEARCH while "INBOX" holds a matching message, the very first scan yields
`UNDEFINED` and the retry loop returns it immediately — one scan, no further
mailboxes, no further rounds — because line 166 of the source returns early
on any status other than `NOT_FOUND`, contradicting "an Undefined scan
outcome does not cause early termination". -/
theorem c2_counterexample :
    imap_retrieve_mail envJunkUndef 10 (some "Junk") "tok123" false =
      (Except.ok MailFound.UNDEFINED,
        [Ev.sleep 10, Ev.scan 0 "Junk", Ev.logout]) ∧
    imap_search_server (envJunkUndef 0 "INBOX") "INBOX" "tok123" false =
      Except.ok { outcome := MailFound.FOUND, visited := ["1"], deleted := [],
                  expunged := false, closed := true } :=
  ⟨rfl, rfl⟩

/-- Claim C2 (corrected): the retry loop terminates early exactly at the
first scheduled scan — any round, any mailbox — whose outcome is anything
other than `NotFound`: `Found`, `FoundElsewhere`, and also `Undefined` on its
first occurrence.  Whenever all scans scheduled before the round-`i` scan of
mailbox `mb` yield `NOT_FOUND` and that scan yields any other outcome `r`,
the run returns `r.outcome` immediately: the trace shows the earlier rounds
in full, round `i` stopping at `mb`, and the final logout — no further
mailbox of round `i` and no further round is scanned. -/
theorem c2_early_termination (env : Nat → String → ImapMailbox) (d : Int)
    (spam : Option String) (expected : String) (cleanup : Bool)
    (rounds1 : List Nat) (i : Nat) (rounds2 : List Nat)
    (mbs1 : List String) (mb : String) (mbs2 : List String) (r : ScanResult)
    (hrounds : [0, 1, 2] = rounds1 ++ i :: rounds2)
    (hmbs : mailboxesOf spam = mbs1 ++ mb :: mbs2)
    (hbefore : ∀ j ∈ rounds1, ∀ m ∈ mailboxesOf spam, ∃ rr,
      imap_search_server (env j m) m expected cleanup = Except.ok rr ∧
        rr.outcome = MailFound.NOT_FOUND)
    (hround_i : ∀ m ∈ mbs1, ∃ rr,
      imap_search_server (env i m) m expected cleanup = Except.ok rr ∧
        rr.outcome = MailFound.NOT_FOUND)
    (hscan : imap_search_server (env i mb) mb expected cleanup = Except.ok r)
    (hout : r.outcome ≠ MailFound.NOT_FOUND) :
    imap_retrieve_mail env d spam expected cleanup =
      (Except.ok r.outcome,
        (rounds1.map fun (j : Nat) =>
          (if d * (((j : Int) + 1) * ((j : Int) + 1)) > 0
            then [Ev.sleep (d * (((j : Int) + 1) * ((j : Int) + 1)))] else []) ++
          (mailboxesOf spam).map (Ev.scan j)).flatten ++
        ((if d * (((i : Int) + 1) * ((i : Int) + 1)) > 0
          then [Ev.sleep (d * (((i : Int) + 1) * ((i : Int) + 1)))] else []) ++
         ((mbs1 ++ [mb]).map (Ev.scan i) ++ [Ev.logout]))) := by
  show roundsLoop env d (mailboxesOf spam) expected cleanup [0, 1, 2]
      MailFound.NOT_FOUND = _
  rw [hrounds]
  exact roundsLoop_first_hit env d (mailboxesOf spam) expected cleanup i rounds2
    mbs1 mb mbs2 r hmbs hround_i hscan hout rounds1 hbefore MailFound.NOT_FOUND

/-- Claim C2, witness: a run whose first five scheduled scans (all of round
0, then round 1's "Junk") yield `NOT_FOUND` and whose round-1 "INBOX" scan
yields `FOUND` — the run returns `FOUND` right there: round 1 ends at
"INBOX" and round 2 never happens. -/
theorem c2_witness :
    (([0, 1, 2] : List Nat) = [0] ++ 1 :: [2] ∧
      mailboxesOf (some "Junk") = ["Junk"] ++ "INBOX" :: [] ∧
      (∀ j ∈ ([0] : List Nat), ∀ m ∈ mailboxesOf (some "Junk"), ∃ rr,
        imap_search_server (envFoundRound1 j m) m "tok123" false = Except.ok rr ∧
          rr.outcome = MailFound.NOT_FOUND) ∧
      (∀ m ∈ (["Junk"] : List String), ∃ rr,
        imap_search_server (envFoundRound1 1 m) m "tok123" false = Except.ok rr ∧
          rr.outcome = MailFound.NOT_FOUND) ∧
      imap_search_server (envFoundRound1 1 "INBOX") "INBOX" "tok123" false =
        Except.ok rOneMatchNoClean ∧
      rOneMatchNoClean.outcome ≠ MailFound.NOT_FOUND) ∧
    imap_retrieve_mail envFoundRound1 10 (some "Junk") "tok123" false =
      (Except.ok MailFound.FOUND,
        [Ev.sleep 10, Ev.scan 0 "Junk", Ev.scan 0 "INBOX", Ev.sleep 40,
         Ev.scan 1 "Junk", Ev.scan 1 "INBOX", Ev.logout]) := by
  have hb : ∀ j ∈ ([0] : List Nat), ∀ m ∈ mailboxesOf (some "Junk"), ∃ rr,
      imap_search_server (envFoundRound1 j m) m "tok123" false = Except.ok rr ∧
        rr.outcome = MailFound.NOT_FOUND := by
    intro j hj m _
    rw [List.mem_singleton] at hj
    subst hj
    exact ⟨{ outcome := MailFound.NOT_FOUND, visited := [], deleted := [],
             expunged := false, closed := true }, rfl, rfl⟩
  have hp : ∀ m ∈ (["Junk"] : List String), ∃ rr,
      imap_search_server (envFoundRound1 1 m) m "tok123" false = Except.ok rr ∧
        rr.outcome = MailFound.NOT_FOUND := by
    intro m hm
    rw [List.mem_singleton] at hm
    subst hm
    exact ⟨{ outcome := MailFound.NOT_FOUND, visited := [], deleted := [],
             expunged := false, closed := true }, rfl, rfl⟩
  refine ⟨⟨rfl, rfl, hb, hp, rfl, by decide⟩, ?_⟩
  exact c2_early_termination envFoundRound1 10 (some "Junk") "tok123" false
    [0] 1 [2] ["Junk"] "INBOX" [] rOneMatchNoClean rfl rfl hb hp rfl (by decide)

/-- Claim C4 (confirmed): with a positive base delay `d`, a run in which no
match is found performs exactly three rounds — sleeping exactly `d`, `4*d`
and `9*d` seconds, each sleep immediately before that round's scans of every
mailbox in order — and nothing else besides the final logout. -/
theorem c4_retry_plan (env : Nat → String → ImapMailbox) (d : Int)
    (spam : Option String) (expected : String) (cleanup : Bool)
    (hd : 0 < d)
    (h : (imap_retrieve_mail env d spam expected cleanup).1 =
      Except.ok MailFound.NOT_FOUND) :
    (imap_retrieve_mail env d spam expected cleanup).2 =
      fullTrace d (mailboxesOf spam) := by
  have ht := roundsLoop_notfound_trace env d (mailboxesOf spam) expected cleanup
    [0, 1, 2] MailFound.NOT_FOUND h
  have e0 : d * ((((0 : Nat) : Int) + 1) * (((0 : Nat) : Int) + 1)) = d := by
    norm_num
  have e1 : d * ((((1 : Nat) : Int) + 1) * (((1 : Nat) : Int) + 1)) = 4 * d := by
    push_cast
    ring
  have e2 : d * ((((2 : Nat) : Int) + 1) * (((2 : Nat) : Int) + 1)) = 9 * d := by
    push_cast
    ring
  have h4 : (0 : Int) < 4 * d := by linarith
  have h9 : (0 : Int) < 9 * d := by linarith
  show (roundsLoop env d (mailboxesOf spam) expected cleanup [0, 1, 2]
    MailFound.NOT_FOUND).2 = _
  rw [ht]
  simp only [List.map_cons, List.map_nil, List.flatten_cons, List.flatten_nil,
    List.append_nil, e0, e1, e2]
  rw [if_pos hd, if_pos h4, if_pos h9]
  simp [fullTrace, List.append_assoc]

/-- Claim C4, witness: the all-empty environment with base delay 10 — three
rounds, sleeps of 10, 40 and 90 seconds, and the full scan schedule. -/
theorem c4_witness :
    ((0 : Int) < 10 ∧
      (imap_retrieve_mail envAllEmpty 10 (some "Junk") "tok123" false).1 =
        Except.ok MailFound.NOT_FOUND) ∧
    (imap_retrieve_mail envAllEmpty 10 (some "Junk") "tok123" false).2 =
      fullTrace 10 (mailboxesOf (some "Junk")) :=
  ⟨⟨by decide, rfl⟩,
    c4_retry_plan envAllEmpty 10 (some "Junk") "tok123" false (by decide) rfl⟩

/-- Claim C5 (confirmed): with a configured (non-empty) spam box `s`, the
mailbox order is `[s, "INBOX"]` — the primary mailbox last — and the scans
any run performs are a prefix of the schedule that, within each of the three
rounds, searches `s` strictly before "INBOX". -/
theorem c5_search_order (env : Nat → String → ImapMailbox) (d : Int)
    (s expected : String) (cleanup : Bool) (hs : s ≠ "") :
    mailboxesOf (some s) = [s, "INBOX"] ∧
    ∃ t, scansOf (imap_retrieve_mail env d (some s) expected cleanup).2 ++ t =
      roundScanOrder s := by
  have hm : mailboxesOf (some s) = [s, "INBOX"] := by simp [mailboxesOf, hs]
  refine ⟨hm, ?_⟩
  obtain ⟨t, ht⟩ := roundsLoop_scans env d (mailboxesOf (some s)) expected cleanup
    [0, 1, 2] MailFound.NOT_FOUND
  refine ⟨t, ?_⟩
  show scansOf (roundsLoop env d (mailboxesOf (some s)) expected cleanup [0, 1, 2]
    MailFound.NOT_FOUND).2 ++ t = _
  rw [ht, hm]
  simp [roundScanOrder]

/-- Claim C5, witness: the order property at the all-empty environment with
spam box "Junk". -/
theorem c5_witness :
    ("Junk" ≠ "") ∧
    (mailboxesOf (some "Junk") = ["Junk", "INBOX"] ∧
      ∃ t, scansOf (imap_retrieve_mail envAllEmpty 10 (some "Junk") "tok123"
        false).2 ++ t = roundScanOrder "Junk") :=
  ⟨by decide, c5_search_order envAllEmpty 10 "Junk" "tok123" false (by decide)⟩

/-- Claim C7, counterexample: with an empty expected token, the single
message of `mbNoHeader` carries no `X-Icinga-Test-Id` line at all, yet
visiting it flips the scan state from `NOT_FOUND` to `FOUND` — the running
token starts as `""` and the comparison at line 219 runs even when no header
was seen, so "never changes the token-found state" fails as stated. -/
theorem c7_counterexample :
    imap_search_server mbNoHeader "INBOX" "" false =
      Except.ok { outcome := MailFound.FOUND, visited := ["1"], deleted := [],
                  expunged := false, closed := true } ∧
    (∀ l ∈ pySplitlines (emailHeader (mbNoHeader.fetch "1")),
      isIdHeaderLine l = false) :=
  ⟨rfl, by decide⟩

/-- Claim C7 (corrected): provided the expected token is non-empty (in the
program it is always a rendered UUID), a message none of whose header lines
starts with `X-Icinga-Test-Id` never changes the token-found state of the
scan, at any position: the scan state after visiting it equals the state
before, even though the running token value parsed from earlier messages
persists. -/
theorem c7_no_header_invariant (fetch : String → String) (mailbox expected : String)
    (cleanup : Bool) (ids1 : List String) (id : String)
    (hexp : expected ≠ "")
    (hnohdr : ∀ l ∈ pySplitlines (emailHeader (fetch id)), isIdHeaderLine l = false) :
    (scanLoop fetch mailbox expected cleanup (ids1 ++ [id]) initScanState).map
        ScanState.token_found =
      (scanLoop fetch mailbox expected cleanup ids1 initScanState).map
        ScanState.token_found := by
  rw [scanLoop_append fetch mailbox expected cleanup ids1 [id] initScanState rfl]
  cases hsl : scanLoop fetch mailbox expected cleanup ids1 initScanState with
  | error e => rfl
  | ok st1 =>
    by_cases htf : st1.token_found = MailFound.NOT_FOUND
    · have htok : headerLinesToken (pySplitlines (emailHeader (fetch id)))
          st1.token = Except.ok st1.token :=
        headerLinesToken_no_header _ _ hnohdr
      have hne : st1.token ≠ expected :=
        scanLoop_token_ne fetch mailbox expected cleanup ids1 initScanState st1
          rfl (Ne.symm hexp) hsl htf
      simp only [htf, if_true, scanLoop, htok, hne, if_false]
      simp [Except.map, htf]
    · simp only [htf, if_false]

/-- Claim C7, witness: the no-header invariant applied after a first message
whose header carries a non-matching token. -/
theorem c7_witness :
    ("tok123" ≠ "" ∧
      (∀ l ∈ pySplitlines (emailHeader (fetchTokenThenPlain "2")),
        isIdHeaderLine l = false)) ∧
    (scanLoop fetchTokenThenPlain "INBOX" "tok123" false (["1"] ++ ["2"])
        initScanState).map ScanState.token_found =
      (scanLoop fetchTokenThenPlain "INBOX" "tok123" false ["1"]
        initScanState).map ScanState.token_found :=
  ⟨⟨by decide, by decide⟩,
    c7_no_header_invariant fetchTokenThenPlain "INBOX" "tok123" false ["1"] "2"
      (by decide) (by decide)⟩

/-- Claim C9 (confirmed): whenever `imap_retrieve_mail` returns a status to
its caller — the early-return path on a non-`NOT_FOUND` scan (including a
failed scan surfacing as `UNDEFINED`) and the loop-exhaustion path alike —
its trace contains exactly one logout, and that logout is the final action
before returning.  (An uncaught Python exception is not a return; on that
path the source reaches no `logout()` call.) -/
theorem c9_logout_once (env : Nat → String → ImapMailbox) (d : Int)
    (spam : Option String) (expected : String) (cleanup : Bool) (s : MailFound)
    (h : (imap_retrieve_mail env d spam expected cleanup).1 = Except.ok s) :
    logoutCount (imap_retrieve_mail env d spam expected cleanup).2 = 1 ∧
    ∃ t, (imap_retrieve_mail env d spam expected cleanup).2 = t ++ [Ev.logout] :=
  roundsLoop_logout env d (mailboxesOf spam) expected cleanup [0, 1, 2]
    MailFound.NOT_FOUND s h

/-- Claim C9, witness: the logout property on the early-`UNDEFINED` run —
the scan failed, and the session is still logged out exactly once, last. -/
theorem c9_witness :
    ((imap_retrieve_mail envJunkUndef 10 (some "Junk") "tok123" false).1 =
      Except.ok MailFound.UNDEFINED) ∧
    (logoutCount (imap_retrieve_mail envJunkUndef 10 (some "Junk") "tok123"
        false).2 = 1 ∧
      ∃ t, (imap_retrieve_mail envJunkUndef 10 (some "Junk") "tok123" false).2 =
        t ++ [Ev.logout]) :=
  ⟨rfl, c9_logout_once envJunkUndef 10 (some "Junk") "tok123" false
    MailFound.UNDEFINED rfl⟩
